import Mathlib

/-!
Verification development for the candidature CMS (`streamlit_app.py`).

The Python program is shallowly embedded: spreadsheet cells become the
inductive type `Cell` (a pandas NaN is `Cell.blank`), DataFrames become
lists of rows, the SQLite `records` table becomes the structure `Table`,
and each relevant Python function is translated into an executable Lean
definition of the same name.  String processing is done on `List Char`
(Python `str` indexes code points, so this is the faithful view).
-/

set_option maxRecDepth 4000

/-- One spreadsheet / DataFrame cell.  `blank` models a pandas NaN (or SQL
NULL when it reaches the database); `text` models a Python `str` cell;
`num` models a numeric cell (the claims never depend on numeric values,
so integers suffice). -/
inductive Cell where
  | blank
  | text (s : String)
  | num (n : Int)
deriving DecidableEq, Repr

/-- Mirrors pandas `notna` on one cell: everything except NaN. -/
def Cell.notna : Cell → Bool
  | .blank => false
  | _ => true

/-- Mirrors Python `isinstance(x, str)` on one cell. -/
def Cell.isText : Cell → Bool
  | .text _ => true
  | _ => false

/-- Mirrors the loop-body test of `detect_header_row` (line 88):
`row.notna().sum() >= 3 and any(isinstance(x, str) for x in row.values)`. -/
def rowQualifies (row : List Cell) : Bool :=
  decide (3 ≤ (row.filter Cell.notna).length) && row.any Cell.isText

/-- The scanning loop of `detect_header_row`: starting at row `i` with
`fuel` rows of the scan window remaining, return the first qualifying row
index, else 0 (the Python `for i in range(...)` loop with its final
`return 0`). -/
def scanHeader (df : List (List Cell)) : Nat → Nat → Nat
  | 0, _ => 0
  | fuel + 1, i =>
    if rowQualifies (df.getD i []) then i else scanHeader df fuel (i + 1)

/-- Embeds `detect_header_row(df, max_scan=50)` (lines 85-90); the program
always calls it with the default `max_scan = 50`. -/
def detect_header_row (df : List (List Cell)) (max_scan : Nat) : Nat :=
  scanHeader df (min max_scan df.length) 0

/-- ASCII whitespace, the characters Python's `\s` and `str.strip()`
recognise on the ASCII range. -/
def isWs (c : Char) : Bool :=
  c = ' ' || c = '\t' || c = '\n' || c = '\r' || c = '\x0b' || c = '\x0c'

/-- Replaces every maximal run of characters satisfying `p` by the single
character `rep` (the effect of `re.sub(r"X+", rep, s)` for a character
class `X`).  The flag records whether we are inside a run. -/
def collapseRunsAux (p : Char → Bool) (rep : Char) : Bool → List Char → List Char
  | _, [] => []
  | inRun, c :: cs =>
    if p c then
      if inRun then collapseRunsAux p rep true cs
      else rep :: collapseRunsAux p rep true cs
    else c :: collapseRunsAux p rep false cs

/-- Starts `collapseRunsAux` outside a run. -/
def collapseRuns (p : Char → Bool) (rep : Char) (l : List Char) : List Char :=
  collapseRunsAux p rep false l

/-- Drops characters satisfying `p` from both ends (Python `str.strip`
with the corresponding character set). -/
def stripWhile (p : Char → Bool) (l : List Char) : List Char :=
  ((l.dropWhile p).reverse.dropWhile p).reverse

/-- Lower-cases a string code point by code point (ASCII, as in the data
this program handles). -/
def pyLower (s : String) : List Char :=
  s.toList.map Char.toLower

/-- Embeds one element of `normalize_columns` (lines 92-93):
`re.sub(r"\s+", " ", str(c)).replace("/", " ").replace("&", "and").strip()`. -/
def normalize_col (s : String) : String :=
  let l1 := collapseRuns isWs ' ' s.toList
  let l2 := l1.map (fun c => if c = '/' then ' ' else c)
  let l3 := l2.flatMap (fun c => if c = '&' then ['a', 'n', 'd'] else [c])
  ⟨stripWhile isWs l3⟩

/-- Embeds `normalize_columns` (lines 92-93). -/
def normalize_columns (cols : List String) : List String :=
  cols.map normalize_col

/-- First whitespace-separated word of a string, as `s.split()[0]` in
Python returns it (the inputs in this program are the non-empty canonical
field names, for which `split()` is never empty). -/
def firstWord (l : List Char) : List Char :=
  (l.dropWhile isWs).takeWhile (fun c => !isWs c)

/-- Boolean list-level "is a prefix of" check. -/
def isPrefixOfCL : List Char → List Char → Bool
  | [], _ => true
  | _ :: _, [] => false
  | a :: as, b :: bs => a == b && isPrefixOfCL as bs

/-- The matching test of the column-mapping loop (line 113):
`c.lower().startswith(canon.lower().split()[0])`. -/
def colMatches (canon c : String) : Bool :=
  isPrefixOfCL (firstWord (pyLower canon)) (pyLower c)

/-- The column mapping of `import_sheet_into_table` (lines 112-114): the
first source column matching the canonical field, else `none`
(`candidates[0] if candidates else None`). -/
def colmapFor (cols : List String) (canon : String) : Option String :=
  cols.find? (colMatches canon)

/-- Embeds `slug` (lines 62-65):
`re.sub(r"[^0-9a-zA-Z]+", "_", name.strip()).strip("_").lower()`, then
`re.sub(r"_+", "_", s)`, then `s or "sheet"`. -/
def slug (name : String) : String :=
  let t := stripWhile isWs name.toList
  let s1 := collapseRuns (fun c => !c.isAlphanum) '_' t
  let s2 := stripWhile (fun c => c = '_') s1
  let s3 := s2.map Char.toLower
  let s4 := collapseRuns (fun c => c = '_') '_' s3
  if s4 = [] then "sheet" else ⟨s4⟩

/-- The fixed canonical column list `CANONICAL_COLUMNS` (lines 15-24). -/
def CANONICAL_COLUMNS : List String :=
  ["Ref #",
   "Candidate Countries",
   "Respective Country\x27s Election Body",
   "Proposal sent by",
   "Indicate Confirmation with date and TPN #",
   "Attachment Path",
   "Created By",
   "Created At"]

/-- A database / DataFrame value: `none` is SQL NULL (pandas NaN). -/
abbrev Val := Option Cell

/-- One stored row of a SQLite table, as an association list from column
name to value. -/
abbrev DbRow := List (String × Val)

/-- A SQLite table: its column set (in declaration order) and its rows in
`id` order (insertion order, since `id` autoincrements). -/
structure Table where
  cols : List String
  rows : List DbRow
deriving DecidableEq, Repr

/-- Embeds `ensure_table` (lines 70-73): `CREATE TABLE IF NOT EXISTS` with
an `id` primary key plus one TEXT column per given name; an existing table
is left untouched.  `none` models the table not existing yet. -/
def ensure_table (t : Option Table) (table_cols : List String) : Table :=
  match t with
  | some tb => tb
  | none => ⟨"id" :: table_cols, []⟩

/-- Embeds `ensure_records_table` (lines 75-83): ensure the table exists,
read its current columns (`PRAGMA table_info`), and `ALTER TABLE ADD
COLUMN` every missing member of `["category"] + CANONICAL_COLUMNS`, in
that order; stored rows are untouched by the `ALTER`s. -/
def ensure_records_table (t : Option Table) : Table :=
  let base := "category" :: CANONICAL_COLUMNS
  let tb := ensure_table t base
  ⟨tb.cols ++ base.filter (fun c => decide (¬ c ∈ tb.cols)), tb.rows⟩

/-- Embeds `read_records` (lines 135-137): ensure the schema, then read
all rows ordered by `id` (our row list is already in `id` order). -/
def read_records (t : Option Table) : Table :=
  ensure_records_table t

/-- Embeds `insert_record` (lines 145-151): one row appended with the
fixed column order `["category"] + CANONICAL_COLUMNS`, missing fields
defaulting to `""` (`record.get(c, "")`). -/
def insert_record (t : Option Table) (record : DbRow) : Table :=
  let tb := ensure_records_table t
  let cols := "category" :: CANONICAL_COLUMNS
  ⟨tb.cols,
   tb.rows ++ [cols.map (fun c => (c, (record.lookup c).getD (some (.text ""))))]⟩

/-- A pandas DataFrame as `import_sheet_into_table` sees it after the
header-row read (line 107): the column labels and the body rows. -/
structure Frame where
  colNames : List String
  rows : List (List Cell)
deriving DecidableEq, Repr

/-- Embeds line 108, `df.dropna(axis=1, how="all").dropna(how="all")`:
first discard columns whose every cell is NaN, then discard rows whose
every (remaining) cell is NaN. -/
def dropEmptyColsRows (f : Frame) : Frame :=
  let keep := (List.range f.colNames.length).filter
    (fun i => f.rows.any (fun r => (r.getD i .blank).notna))
  let names := keep.map (fun i => f.colNames.getD i "")
  let body := f.rows.map (fun r => keep.map (fun i => r.getD i .blank))
  ⟨names, body.filter (fun r => r.any Cell.notna)⟩

/-- The column `df[src]` as a Series of values, NaN as `none` (label-based
selection: the first column carrying that label). -/
def colSeries (f : Frame) (src : String) : List Val :=
  match f.colNames.findIdx? (fun c => c == src) with
  | some j => f.rows.map (fun r =>
      match r.getD j .blank with
      | .blank => none
      | c => some c)
  | none => []

/-- The DataFrame `recs` being built by lines 115-122.  `idx = none`
models a frame whose index has not been established yet (pandas keeps a
0-length index until the first non-empty list-like column assignment);
`idx = some n` models an established index of `n` rows. -/
structure PdFrame where
  idx : Option Nat
  cols : List (String × List Val)
deriving DecidableEq, Repr

/-- Scalar column assignment `recs[name] = v`.  On a frame with no
established index the new column has zero rows (pandas broadcasts the
scalar over the 0-length index); otherwise it is broadcast over all `n`
rows. -/
def PdFrame.setScalar (f : PdFrame) (name : String) (v : Val) : PdFrame :=
  match f.idx with
  | none => ⟨none, f.cols ++ [(name, [])]⟩
  | some n => ⟨some n, f.cols ++ [(name, List.replicate n v)]⟩

/-- Series column assignment `recs[name] = series`.  The first non-empty
Series assigned to a frame with a 0-length index establishes the index
and reindexes every previously created column with NaN fill (pandas
`DataFrame._ensure_valid_index`, which runs inside `__setitem__`); after
that, Series sharing the frame's index are stored as given. -/
def PdFrame.setSeries (f : PdFrame) (name : String) (vals : List Val) : PdFrame :=
  match f.idx with
  | none =>
    if vals.length = 0 then ⟨none, f.cols ++ [(name, [])]⟩
    else ⟨some vals.length,
          f.cols.map (fun p => (p.1, List.replicate vals.length (none : Val)))
            ++ [(name, vals)]⟩
  | some n => ⟨some n, f.cols ++ [(name, vals)]⟩

/-- The rows `recs.to_sql(..., index=False)` appends: one `DbRow` per
index entry, in column-creation order. -/
def PdFrame.toRows (f : PdFrame) : List DbRow :=
  match f.idx with
  | none => []
  | some n => (List.range n).map (fun k => f.cols.map (fun p => (p.1, p.2.getD k none)))

/-- Embeds lines 110-122 of `import_sheet_into_table`: the column map over
the five basic canonical fields, then the assignment sequence
`recs["category"] = sheet_name`, the five mapped/unmapped columns, and the
three trailing empty-string columns. -/
def buildRecs (sheet_name : String) (df : Frame) : PdFrame :=
  let f0 := PdFrame.setScalar ⟨none, []⟩ "category" (some (.text sheet_name))
  let f1 := (CANONICAL_COLUMNS.take 5).foldl
    (fun f canon =>
      match colmapFor df.colNames canon with
      | some src => f.setSeries canon (colSeries df src)
      | none => f.setScalar canon none)
    f0
  ((f1.setScalar "Attachment Path" (some (.text ""))).setScalar
    "Created By" (some (.text ""))).setScalar "Created At" (some (.text ""))

/-- Embeds `import_sheet_into_table` (lines 104-130) as it acts on the
`records` table.  `headered` is the sheet as re-read with the detected
header row (lines 105-107); the per-category mirror table (lines 125-128)
lives in a different table and does not touch `records`, so it is outside
this state. -/
def import_sheet_into_table (t : Option Table) (sheet_name : String) (headered : Frame) : Table :=
  let df0 := dropEmptyColsRows headered
  let df : Frame := ⟨normalize_columns df0.colNames, df0.rows⟩
  let recs := buildRecs sheet_name df
  let tb := ensure_records_table t
  ⟨tb.cols, tb.rows ++ recs.toRows⟩

/-- The groupby key of line 159: the row's `category` value; a missing or
NULL category is `none`, and pandas `groupby` drops such rows. -/
def rowCat (r : DbRow) : Option String :=
  match r.lookup "category" with
  | some (some (.text s)) => some s
  | _ => none

/-- Reads one canonical column of a stored row (`g[CANONICAL_COLUMNS[:5]]`
selection; the `records` schema always carries these columns, a missing
entry reads as NULL). -/
def rowGet (r : DbRow) (c : String) : Val :=
  (r.lookup c).getD none

/-- The group `g` of category `c`: the records with that category, in
stored (`id`) order, as pandas `groupby` yields them. -/
def catRows (rows : List DbRow) (c : String) : List DbRow :=
  rows.filter (fun r => decide (rowCat r = some c))

/-- The first five canonical columns, `CANONICAL_COLUMNS[:5]`. -/
def CANON5 : List String := CANONICAL_COLUMNS.take 5

/-- One written worksheet: its header row and its data rows (each with the
synthetic index value written in the first cell). -/
structure XSheet where
  header : List String
  body : List (Nat × List Val)
deriving DecidableEq, Repr

/-- The data sheet written for category `c` (lines 160-163): the group's
first five canonical columns with a 1-based index labelled
`"Ref # (auto)"`. -/
def dataSheet (rows : List DbRow) (c : String) : XSheet :=
  ⟨"Ref # (auto)" :: CANON5,
   (catRows rows c).enum.map (fun p => (p.1 + 1, CANON5.map (rowGet p.2)))⟩

/-- The placeholder sheet of line 169: header of the five basic canonical
columns, no rows, no index column (`index=False`). -/
def placeholderSheet : XSheet := ⟨CANON5, []⟩

/-- Sheet naming, lines 162 and 167: `(cat or "Sheet")[:31]` — an empty
(falsy) name becomes `"Sheet"`, then the name is cut to 31 code points. -/
def truncName (c : String) : String :=
  ⟨(if c = "" then "Sheet" else c).toList.take 31⟩

/-- Insertion step of a lexicographic string sort (pandas `groupby` sorts
its keys ascending). -/
def insertSorted (s : String) : List String → List String
  | [] => [s]
  | t :: ts => if t < s then t :: insertSorted s ts else s :: t :: ts

/-- Insertion sort over strings. -/
def sortStrings (l : List String) : List String :=
  l.foldr insertSorted []

/-- The distinct non-NULL categories present in the stored rows. -/
def uniqueCats (rows : List DbRow) : List String :=
  (rows.filterMap rowCat).dedup

/-- The groupby keys in pandas order: distinct categories, sorted. -/
def sortedCats (rows : List DbRow) : List String :=
  sortStrings (uniqueCats rows)

/-- The data sheets emitted by lines 158-163, guarded by
`if not df.empty`, one per groupby key in key order. -/
def dataSheets (rows : List DbRow) : List (String × XSheet) :=
  if rows.isEmpty then []
  else (sortedCats rows).map (fun c => (truncName c, dataSheet rows c))

/-- Embeds `export_report_workbook` (lines 153-171) as the sequence of
worksheets handed to the writer: the per-category data sheets, then — when
`include_all_template_sheets` — a placeholder for every template category
whose truncated name is not among the already written data-sheet names
(`existing = set(writer.sheets.keys())`, computed once before the
placeholder loop).  `template_sheets` is the sheet-name list of the
external template workbook (`get_template_categories`). -/
def export_report_workbook (t : Table) (template_sheets : List String)
    (include_all_template_sheets : Bool) : List (String × XSheet) :=
  let ds := dataSheets t.rows
  let tmpl := if include_all_template_sheets then template_sheets else []
  let existing := ds.map Prod.fst
  let ph := if include_all_template_sheets then
      tmpl.filterMap (fun cat =>
        let nm := truncName cat
        if nm ∈ existing then none else some (nm, placeholderSheet))
    else []
  ds ++ ph

/-- The permission set attached to one role (the four action flags of the
`ROLE_PERMS` dictionaries, lines 26-30). -/
structure Perms where
  can_import : Bool
  can_add : Bool
  can_edit : Bool
  can_export : Bool
deriving DecidableEq, Repr

/-- Embeds `ROLE_PERMS` (lines 26-30), flags in the order
import, add, edit, export. -/
def ROLE_PERMS : List (String × Perms) :=
  [("admin", ⟨true, true, true, true⟩),
   ("editor", ⟨false, true, true, true⟩),
   ("viewer", ⟨false, false, false, true⟩)]

/-- Embeds line 178, `ROLE_PERMS.get(auth["role"], ROLE_PERMS["viewer"])`;
the fallback literal is the viewer row of `ROLE_PERMS`. -/
def permsFor (role : String) : Perms :=
  (ROLE_PERMS.lookup role).getD ⟨false, false, false, true⟩

/-- The session authentication state `st.session_state.auth`. -/
structure Auth where
  user : Option String
  role : String
deriving DecidableEq, Repr

/-- The signed-out state, as initialised on line 44 and restored on
sign-out (line 48): `{"user": None, "role": "viewer"}`. -/
def init_auth : Auth := ⟨none, "viewer"⟩

/-- One entry of the `users.yaml` credentials map: its `password` and
`role` keys, either possibly absent. -/
structure UserEntry where
  password : Option String
  role : Option String
deriving DecidableEq, Repr

/-- Python `str(x)` on an optional string, as applied to
`users[u].get("password")` on line 54 (`str(None)` is `"None"`). -/
def pyStr : Option String → String
  | some s => s
  | none => "None"

/-- Embeds the sign-in branch of `login_flow` (lines 53-58), which runs
from the signed-out state: on `u in users and p == str(users[u].get("password"))`
the session becomes the signed-in state with the user's role (defaulting
to `"viewer"`); otherwise an error is shown (`Bool` result `false`) and
the session state is left as it was. -/
def loginAttempt (users : List (String × UserEntry)) (u p : String) : Auth × Bool :=
  match users.lookup u with
  | some e =>
    if p = pyStr e.password then (⟨some u, e.role.getD "viewer"⟩, true)
    else (init_auth, false)
  | none => (init_auth, false)

/-- Concrete sheet for the header-detection instance of the spec: two
blank rows, then a row of four non-null text cells. -/
def exampleSheet : List (List Cell) :=
  [[.blank, .blank, .blank, .blank],
   [.blank, .blank, .blank, .blank],
   [.text "Ref #", .text "Candidate Countries", .text "Proposal sent by", .text "Notes"]]

/-- Concrete imported sheet (already re-read with its header row): four
well-named columns and one data row. -/
def asiaFrame : Frame :=
  ⟨["Ref #", "Candidate Countries", "Respective Country\x27s Election Body",
    "Proposal sent by"],
   [[.text "R-1", .text "Maldives", .text "ECM", .text "Alice"]]⟩

/-- Concrete stored record with category `"Asia"`. -/
def asiaRow : DbRow :=
  [("id", some (.num 1)),
   ("category", some (.text "Asia")),
   ("Ref #", some (.text "R-1")),
   ("Candidate Countries", some (.text "Maldives")),
   ("Respective Country\x27s Election Body", some (.text "ECM")),
   ("Proposal sent by", some (.text "Alice")),
   ("Indicate Confirmation with date and TPN #", some (.text "TPN-7")),
   ("Attachment Path", some (.text "")),
   ("Created By", some (.text "admin")),
   ("Created At", some (.text "2024-11-08T00:00:00Z"))]

/-- Concrete `records` table holding exactly `asiaRow`. -/
def asiaTable : Table :=
  ⟨"id" :: "category" :: CANONICAL_COLUMNS, [asiaRow]⟩

/-- Concrete credentials map for witness instantiation. -/
def usersEx : List (String × UserEntry) :=
  [("alice", ⟨some "s3cret", some "admin"⟩)]

/-- Concrete pre-existing `records` table with an extra column, for
witness instantiation of the schema claims. -/
def tableEx : Table :=
  ⟨["id", "category", "Legacy"], [[("category", some (.text "Asia"))]]⟩

/-- Scanning from row `i`, the loop stops exactly at the first qualifying
row `k` inside the window. -/
theorem scanHeader_finds (df : List (List Cell)) :
    ∀ (fuel i k : Nat), i ≤ k → k < i + fuel →
      rowQualifies (df.getD k []) = true →
      (∀ j, i ≤ j → j < k → rowQualifies (df.getD j []) = false) →
      scanHeader df fuel i = k := by
  intro fuel
  induction fuel with
  | zero => intro i k h1 h2 _ _; omega
  | succ n ih =>
    intro i k h1 h2 hq hmin
    by_cases h : rowQualifies (df.getD i []) = true
    · have hik : i = k := by
        by_contra hne
        have hlt : i < k := Nat.lt_of_le_of_ne h1 hne
        have hf := hmin i (Nat.le_refl i) hlt
        rw [hf] at h
        exact Bool.noConfusion h
      subst hik
      simp only [scanHeader]
      rw [if_pos h]
    · have hb : rowQualifies (df.getD i []) = false := by
        cases hx : rowQualifies (df.getD i [])
        · rfl
        · exact absurd hx h
      have hik : i ≠ k := by
        intro he
        rw [he, hq] at hb
        exact Bool.noConfusion hb
      have h1' : i + 1 ≤ k := Nat.lt_of_le_of_ne h1 hik
      simp only [scanHeader]
      rw [if_neg h]
      exact ih (i + 1) k h1' (by omega) hq (fun j hj1 hj2 => hmin j (by omega) hj2)

/-- When no row of the window qualifies, the loop falls through to 0. -/
theorem scanHeader_notfound (df : List (List Cell)) :
    ∀ (fuel i : Nat),
      (∀ j, i ≤ j → j < i + fuel → rowQualifies (df.getD j []) = false) →
      scanHeader df fuel i = 0 := by
  intro fuel
  induction fuel with
  | zero => intro i _; rfl
  | succ n ih =>
    intro i h
    have hi : rowQualifies (df.getD i []) = false := h i (Nat.le_refl i) (by omega)
    simp only [scanHeader]
    rw [if_neg (by rw [hi]; exact Bool.noConfusion)]
    exact ih (i + 1) (fun j h1 h2 => h j (by omega) (by omega))

/-- A successful `find?` returns an element of the list that satisfies the
predicate and is preceded only by elements that do not. -/
theorem find?_some_first {α : Type} (p : α → Bool) :
    ∀ (l : List α) (c : α), l.find? p = some c →
      p c = true ∧ ∃ l1 l2, l = l1 ++ c :: l2 ∧ ∀ b ∈ l1, p b = false := by
  intro l
  induction l with
  | nil => intro c h; exact absurd h (by simp)
  | cons a as ih =>
    intro c h
    by_cases ha : p a = true
    · rw [List.find?_cons_of_pos _ ha] at h
      obtain rfl : a = c := Option.some.inj h
      exact ⟨ha, [], as, rfl, by simp⟩
    · have hb : p a = false := by
        cases hx : p a
        · rfl
        · exact absurd hx ha
      rw [List.find?_cons_of_neg _ ha] at h
      obtain ⟨hc, l1, l2, heq, hprev⟩ := ih c h
      refine ⟨hc, a :: l1, l2, by rw [heq, List.cons_append], ?_⟩
      intro b hbm
      rcases List.mem_cons.mp hbm with rfl | hbm'
      · exact hb
      · exact hprev b hbm'

/-- Membership through one insertion step of the string sort. -/
theorem mem_insertSorted (s a : String) :
    ∀ l : List String, a ∈ insertSorted s l ↔ a = s ∨ a ∈ l := by
  intro l
  induction l with
  | nil => simp [insertSorted]
  | cons t ts ih =>
    simp only [insertSorted]
    by_cases h : t < s
    · rw [if_pos h]
      constructor
      · intro hm
        rcases List.mem_cons.mp hm with rfl | hm2
        · exact Or.inr (List.mem_cons_self _ _)
        · rcases ih.mp hm2 with rfl | hm3
          · exact Or.inl rfl
          · exact Or.inr (List.mem_cons_of_mem _ hm3)
      · intro hm
        rcases hm with rfl | hm2
        · exact List.mem_cons_of_mem _ (ih.mpr (Or.inl rfl))
        · rcases List.mem_cons.mp hm2 with rfl | hm3
          · exact List.mem_cons_self _ _
          · exact List.mem_cons_of_mem _ (ih.mpr (Or.inr hm3))
    · rw [if_neg h]
      exact List.mem_cons

/-- Sorting preserves membership (the direction the export claims need). -/
theorem mem_sortStrings (a : String) :
    ∀ l : List String, a ∈ l → a ∈ sortStrings l := by
  intro l
  induction l with
  | nil => intro h; exact absurd h (List.not_mem_nil a)
  | cons t ts ih =>
    intro h
    show a ∈ insertSorted t (sortStrings ts)
    rw [mem_insertSorted]
    rcases List.mem_cons.mp h with rfl | hm
    · exact Or.inl rfl
    · exact Or.inr (ih hm)

/-- After `ensure_records_table`, every required column is present. -/
theorem ensure_subset_base (t : Option Table) :
    ("category" :: CANONICAL_COLUMNS) ⊆ (ensure_records_table t).cols := by
  intro c hc
  show c ∈ (ensure_table t _).cols ++ _
  by_cases h : c ∈ (ensure_table t ("category" :: CANONICAL_COLUMNS)).cols
  · exact List.mem_append_left _ h
  · refine List.mem_append_right _ ?_
    rw [List.mem_filter]
    exact ⟨hc, by simpa using h⟩

/-- Columns already present are never re-added. -/
theorem filter_missing_nil (base l : List String) (h : base ⊆ l) :
    base.filter (fun c => decide (¬ c ∈ l)) = [] := by
  induction base with
  | nil => rfl
  | cons a as ih =>
    have ha : a ∈ l := h (List.mem_cons_self a as)
    have has : as ⊆ l := fun x hx => h (List.mem_cons_of_mem a hx)
    have hcond : decide (¬ a ∈ l) = false := by simp [ha]
    rw [List.filter_cons, hcond, if_neg Bool.false_ne_true]
    exact ih has

/-- C1: the claim says every imported canonical row carries the sheet name
in its `category` field.  The code does not deliver this: at a sheet named
`"Asia"` with four well-named columns and one data row, exactly one
canonical row is appended (and its mapped fields are pulled, its unmapped
field is NULL, and the three stamp fields are empty strings), but its
`category` value is NULL — the scalar `recs["category"] = sheet_name` was
assigned while `recs` still had a 0-length index, and the first mapped
column's Series assignment re-established the index with NaN fill. -/
theorem C1_import_category_null :
    (import_sheet_into_table none "Asia" asiaFrame).rows.length = 1 ∧
    ((import_sheet_into_table none "Asia" asiaFrame).rows.getD 0 []).lookup "category"
      = some none ∧
    ((import_sheet_into_table none "Asia" asiaFrame).rows.getD 0 []).lookup "Ref #"
      = some (some (.text "R-1")) ∧
    ((import_sheet_into_table none "Asia" asiaFrame).rows.getD 0 []).lookup
        "Indicate Confirmation with date and TPN #" = some none ∧
    ((import_sheet_into_table none "Asia" asiaFrame).rows.getD 0 []).lookup "Created By"
      = some (some (.text "")) := by
  decide

/-- C2: `detect_header_row` returns the first row among the first
`min(50, len(df))` rows with at least 3 non-empty cells and at least one
text cell, returns 0 when no row qualifies, and returns 2 on a sheet of
two blank rows followed by a row of four non-null text cells. -/
theorem C2_detect_header_row (df : List (List Cell)) (k : Nat) :
    (k < min 50 df.length → rowQualifies (df.getD k []) = true →
      (∀ j, j < k → rowQualifies (df.getD j []) = false) →
      detect_header_row df 50 = k) ∧
    ((∀ j, j < min 50 df.length → rowQualifies (df.getD j []) = false) →
      detect_header_row df 50 = 0) ∧
    detect_header_row exampleSheet 50 = 2 := by
  refine ⟨?_, ?_, by decide⟩
  · intro h1 h2 h3
    exact scanHeader_finds df (min 50 df.length) 0 k (Nat.zero_le k) (by omega) h2
      (fun j _ hj => h3 j hj)
  · intro h
    exact scanHeader_notfound df (min 50 df.length) 0 (fun j _ hj => h j (by omega))

/-- Witness for C2 at the concrete two-blank-rows sheet. -/
theorem C2_witness : detect_header_row exampleSheet 50 = 2 :=
  (C2_detect_header_row exampleSheet 2).1 (by decide) (by decide) (by decide)

/-- C3: for each of the first five canonical fields, the column map picks
the first source column (in column order) whose name, lower-cased, starts
with the first word of the lower-cased canonical field name, and yields
`none` exactly when no column matches. -/
theorem C3_column_mapping (cols : List String) (canon : String)
    (_hc : canon ∈ CANONICAL_COLUMNS.take 5) :
    (∀ c, colmapFor cols canon = some c →
      colMatches canon c = true ∧
      ∃ pre post, cols = pre ++ c :: post ∧ ∀ b ∈ pre, colMatches canon b = false) ∧
    (colmapFor cols canon = none ↔ ∀ c ∈ cols, colMatches canon c = false) := by
  constructor
  · intro c h
    exact find?_some_first (colMatches canon) cols c h
  · simp only [colmapFor, List.find?_eq_none, Bool.not_eq_true]

/-- Witness for C3: mapping "Candidate Countries" over two concrete
columns selects the second, the first not matching. -/
theorem C3_witness :
    colMatches "Candidate Countries" "Candidate Countries Region" = true ∧
    ∃ pre post,
      ["Ref #", "Candidate Countries Region"] = pre ++ "Candidate Countries Region" :: post ∧
      ∀ b ∈ pre, colMatches "Candidate Countries" b = false :=
  (C3_column_mapping ["Ref #", "Candidate Countries Region"] "Candidate Countries"
    (by decide)).1 "Candidate Countries Region" (by decide)

/-- C4 counterexample: the claim calls the two slugs distinct, but
`slug "North & Central"` and `slug "north---central"` are the same
string. -/
theorem C4_counterexample :
    ¬ (slug "North & Central" ≠ slug "north---central") := by
  decide

/-- C4 (amended): "North & Central" and "north---central" slugify to the
same deterministic string `"north_central"`, which is lowercase and made
of alphanumerics and underscores only; `slug` is a pure function, so the
same input always slugifies identically. -/
theorem C4_slug_stability :
    slug "North & Central" = "north_central" ∧
    slug "north---central" = "north_central" ∧
    ("north_central".toList.all (fun c => (c.isLower || c.isDigit) || c = '_')) = true ∧
    ∀ s : String, slug s = slug s := by
  exact ⟨by decide, by decide, by decide, fun s => rfl⟩

/-- Idempotence step: a records table already carrying every required
column is returned unchanged. -/
theorem ensure_idem (tb : Table)
    (h : ("category" :: CANONICAL_COLUMNS) ⊆ tb.cols) :
    ensure_records_table (some tb) = tb := by
  show (⟨tb.cols ++ ("category" :: CANONICAL_COLUMNS).filter
      (fun c => decide (¬ c ∈ tb.cols)), tb.rows⟩ : Table) = tb
  rw [filter_missing_nil _ _ h, List.append_nil]

/-- C5: every non-empty category present in the records table yields a
worksheet named with its first 31 characters, whose header is the index
label followed by the first five canonical columns and whose body is
exactly that category's records (in stored order) restricted to those
five columns, indexed from 1. -/
theorem C5_export_category_sheets (t : Table) (tmpl : List String) (inc : Bool)
    (c : String) (hne : c ≠ "") (hmem : some c ∈ t.rows.map rowCat) :
    ((⟨c.toList.take 31⟩ : String), dataSheet t.rows c) ∈
      export_report_workbook t tmpl inc ∧
    (dataSheet t.rows c).header = "Ref # (auto)" :: CANONICAL_COLUMNS.take 5 ∧
    (dataSheet t.rows c).body =
      (catRows t.rows c).enum.map
        (fun p => (p.1 + 1, (CANONICAL_COLUMNS.take 5).map (rowGet p.2))) := by
  obtain ⟨r, hr, hrc⟩ := List.mem_map.mp hmem
  have hfm : c ∈ t.rows.filterMap rowCat := List.mem_filterMap.mpr ⟨r, hr, hrc⟩
  have hdd : c ∈ uniqueCats t.rows := List.mem_dedup.mpr hfm
  have hsc : c ∈ sortedCats t.rows := mem_sortStrings c _ hdd
  have hrows : ¬ t.rows.isEmpty = true := by
    cases hrws : t.rows with
    | nil => rw [hrws] at hr; exact absurd hr (List.not_mem_nil r)
    | cons x xs => simp
  have hmemds : (truncName c, dataSheet t.rows c) ∈ dataSheets t.rows := by
    unfold dataSheets
    rw [if_neg hrows]
    exact List.mem_map.mpr ⟨c, hsc, rfl⟩
  have htr : truncName c = (⟨c.toList.take 31⟩ : String) := by
    unfold truncName
    rw [if_neg hne]
  refine ⟨?_, rfl, rfl⟩
  rw [← htr]
  exact List.mem_append_left _ hmemds

/-- Witness for C5: the single-record "Asia" table exports an "Asia"
sheet with that record's five canonical fields indexed from 1. -/
theorem C5_witness :
    ((⟨"Asia".toList.take 31⟩ : String), dataSheet asiaTable.rows "Asia") ∈
      export_report_workbook asiaTable ["Asia", "Europe"] true ∧
    (dataSheet asiaTable.rows "Asia").header =
      "Ref # (auto)" :: CANONICAL_COLUMNS.take 5 ∧
    (dataSheet asiaTable.rows "Asia").body =
      (catRows asiaTable.rows "Asia").enum.map
        (fun p => (p.1 + 1, (CANONICAL_COLUMNS.take 5).map (rowGet p.2))) :=
  C5_export_category_sheets asiaTable ["Asia", "Europe"] true "Asia"
    (by decide) (by decide)

/-- C6: with `include_all_template_sheets`, every template category whose
truncated name was not emitted as a data sheet yields an empty placeholder
sheet of the five canonical column headers; concretely, exporting the
"Asia"-only table against template sheets ["Asia", "Europe"] yields a
non-empty "Asia" data sheet and an empty-header "Europe" sheet. -/
theorem C6_placeholder_sheets (t : Table) (tmpl : List String) (cat : String)
    (h1 : cat ∈ tmpl) (h2 : truncName cat ∉ (dataSheets t.rows).map Prod.fst) :
    (truncName cat, placeholderSheet) ∈ export_report_workbook t tmpl true ∧
    placeholderSheet.header = CANONICAL_COLUMNS.take 5 ∧
    placeholderSheet.body = [] ∧
    (("Asia" : String), dataSheet asiaTable.rows "Asia") ∈
      export_report_workbook asiaTable ["Asia", "Europe"] true ∧
    (dataSheet asiaTable.rows "Asia").body ≠ [] ∧
    (("Europe" : String), placeholderSheet) ∈
      export_report_workbook asiaTable ["Asia", "Europe"] true := by
  refine ⟨?_, rfl, rfl, by decide, by decide, by decide⟩
  apply List.mem_append_right
  apply List.mem_filterMap.mpr
  refine ⟨cat, h1, ?_⟩
  show (if truncName cat ∈ (dataSheets t.rows).map Prod.fst then none
        else some (truncName cat, placeholderSheet))
      = some (truncName cat, placeholderSheet)
  rw [if_neg h2]

/-- Witness for C6 at the concrete "Asia"-only table and the
["Asia", "Europe"] template. -/
theorem C6_witness :
    (truncName "Europe", placeholderSheet) ∈
      export_report_workbook asiaTable ["Asia", "Europe"] true ∧
    placeholderSheet.header = CANONICAL_COLUMNS.take 5 ∧
    placeholderSheet.body = [] ∧
    (("Asia" : String), dataSheet asiaTable.rows "Asia") ∈
      export_report_workbook asiaTable ["Asia", "Europe"] true ∧
    (dataSheet asiaTable.rows "Asia").body ≠ [] ∧
    (("Europe" : String), placeholderSheet) ∈
      export_report_workbook asiaTable ["Asia", "Europe"] true :=
  C6_placeholder_sheets asiaTable ["Asia", "Europe"] "Europe" (by decide) (by decide)

/-- C7: the role-to-permission table is exactly admin: all four actions;
editor: add, edit, export but not import; viewer: export only. -/
theorem C7_role_permission_table :
    ROLE_PERMS.map Prod.fst = ["admin", "editor", "viewer"] ∧
    ROLE_PERMS.lookup "admin" = some ⟨true, true, true, true⟩ ∧
    ROLE_PERMS.lookup "editor" = some ⟨false, true, true, true⟩ ∧
    ROLE_PERMS.lookup "viewer" = some ⟨false, false, false, true⟩ ∧
    (permsFor "viewer").can_import = false ∧
    (permsFor "viewer").can_add = false ∧
    (permsFor "viewer").can_edit = false ∧
    (permsFor "viewer").can_export = true ∧
    (permsFor "editor").can_import = false ∧
    (permsFor "editor").can_add = true ∧
    (permsFor "editor").can_edit = true ∧
    (permsFor "editor").can_export = true ∧
    (permsFor "admin").can_import = true ∧
    (permsFor "admin").can_add = true ∧
    (permsFor "admin").can_edit = true ∧
    (permsFor "admin").can_export = true := by
  decide

/-- C8: a sign-in attempt from the signed-out state succeeds exactly when
the username is known and the password equals the stored plaintext
password (as Python stringifies it), and any failed attempt leaves the
session in the signed-out state. -/
theorem C8_login_rejection (users : List (String × UserEntry)) (u p : String) :
    ((loginAttempt users u p).2 = true ↔
      ∃ e, users.lookup u = some e ∧ p = pyStr e.password) ∧
    ((loginAttempt users u p).2 = false → (loginAttempt users u p).1 = init_auth) := by
  cases h : users.lookup u with
  | none =>
    constructor
    · simp [loginAttempt, h]
    · intro _
      simp [loginAttempt, h]
  | some e =>
    by_cases hp : p = pyStr e.password
    · constructor
      · simp [loginAttempt, h, hp]
      · simp [loginAttempt, h, hp]
    · constructor
      · simp [loginAttempt, h, hp]
      · intro _
        simp [loginAttempt, h, hp]

/-- Witness for C8: a wrong password for a known user leaves the session
signed out. -/
theorem C8_witness : (loginAttempt usersEx "alice" "wrong").1 = init_auth :=
  (C8_login_rejection usersEx "alice" "wrong").2 (by decide)

/-- C9: after `ensure_records_table` the schema contains `category` and
all eight canonical columns; pre-existing columns and row data are
preserved; a second consecutive call changes nothing; and the operations
that begin with it (`insert_record`, `read_records`,
`import_sheet_into_table`) inherit the column guarantee. -/
theorem C9_records_schema (t : Option Table) (r : DbRow) (s : String) (f : Frame) :
    ("category" :: CANONICAL_COLUMNS) ⊆ (ensure_records_table t).cols ∧
    (∀ tb, t = some tb →
      tb.cols ⊆ (ensure_records_table t).cols ∧
      (ensure_records_table t).rows = tb.rows) ∧
    ensure_records_table (some (ensure_records_table t)) = ensure_records_table t ∧
    ("category" :: CANONICAL_COLUMNS) ⊆ (insert_record t r).cols ∧
    ("category" :: CANONICAL_COLUMNS) ⊆ (read_records t).cols ∧
    ("category" :: CANONICAL_COLUMNS) ⊆ (import_sheet_into_table t s f).cols := by
  refine ⟨ensure_subset_base t, ?_, ?_, ensure_subset_base t, ensure_subset_base t,
    ensure_subset_base t⟩
  · intro tb h
    subst h
    constructor
    · intro x hx
      show x ∈ tb.cols ++ _
      exact List.mem_append_left _ hx
    · rfl
  · exact ensure_idem (ensure_records_table t) (ensure_subset_base t)

/-- Witness for C9: the legacy table keeps its extra column and its row
data across `ensure_records_table`. -/
theorem C9_witness :
    tableEx.cols ⊆ (ensure_records_table (some tableEx)).cols ∧
    (ensure_records_table (some tableEx)).rows = tableEx.rows :=
  (C9_records_schema (some tableEx) [] "s" ⟨[], []⟩).2.1 tableEx rfl

/-- C10: a session that never signed in has role "viewer", whose
permission row allows export and blocks import, add and edit. -/
theorem C10_anonymous_viewer :
    init_auth.user = none ∧ init_auth.role = "viewer" ∧
    permsFor init_auth.role = ⟨false, false, false, true⟩ ∧
    (permsFor init_auth.role).can_export = true ∧
    (permsFor init_auth.role).can_import = false ∧
    (permsFor init_auth.role).can_add = false ∧
    (permsFor init_auth.role).can_edit = false := by
  decide
